import Mathlib

/-!
Verification of the tar exporter orchestration core
(`exporter/tar/export.go`, package `local`).

The Go function `localExporterInstance.Export` is shallowly embedded as a
pure Lean function.  External collaborators (`local.CreateFS`, the session
manager, `filesync.CopyFileWriter`, `fsutil.WriteTar`, the sink close) are
modelled as oracles supplied in a `Collab` record; their observable results
are the inputs of the embedding.  Effects that the claims talk about
(which refs get materialized, which cleanup obligations are collected and
run, what filesystem reaches the tar serializer, whether the sink is
closed) are recorded in an explicit `Trace`.
-/

namespace TarExport

/-- A stat entry, mirroring the fields of `fstypes.Stat` that the exporter
sets: the mode bits, the sanitized path, and the modification time in
nanoseconds (Go zero value 0 when never assigned). -/
structure Stat where
  mode : Nat
  path : String
  modTime : Int
deriving DecidableEq, Repr

/-- A filesystem handle (`fsutil.FS`).  `base h` is an opaque handle
returned by the `local.CreateFS` collaborator, identified by a numeric id
`h`; `subDir` is the union filesystem built by `fsutil.SubDirFS` from a
list of named directories (stat plus inner filesystem), as in
`fsutil.Dir`. -/
inductive FS where
  | base : Nat → FS
  | subDir : List (Stat × FS) → FS

/-- A materialized directory: the `fsutil.Dir` pair of a stat entry and a
filesystem handle. -/
abbrev Dir := Stat × FS

/-- The typed export configuration, mirroring the fields of
`local.CreateFSOpts` that this core reads or writes: `Epoch` (a
`*time.Time`, modelled as the optional Unix-nanosecond value),
`MultiPlatform` (a `*bool`), and `AttestationPrefix` (field name shortened
here). -/
structure CreateFSOpts where
  epoch : Option Int := none
  multiPlatform : Option Bool := none
  attestationPfx : String := ""
deriving DecidableEq, Repr

/-- The exporter instance state (`localExporterInstance`): its options and
the `preferNonDist` flag. -/
structure ExporterInstance where
  opts : CreateFSOpts
  preferNonDist : Bool := false
deriving DecidableEq, Repr

/-- The decoded view of `inp.Metadata[exptypes.ExporterPlatformsKey]`:
the key may be absent, present with zero bytes, present but not
JSON-decodable, or present and decoding to an ordered list of platform
ids (the platform tuples play no role in this core). -/
inductive PlatformsMeta where
  | absent
  | emptyBytes
  | malformed (e : String)
  | valid (ps : List String)
deriving DecidableEq, Repr

/-- The build result input (`exporter.Source`): a single ref (used when
the ref mapping is empty), the mapping of platform-id to ref, the
platforms metadata entry, and the observable outcome of
`epoch.ParseSource(inp)` (`none` when the source carries no epoch entry,
`some (.ok t)` when one parses to `t`, `some (.error e)` on a parse
failure). -/
structure Source where
  ref : Nat := 0
  refs : List (String × Nat) := []
  platformsMeta : PlatformsMeta := .absent
  epochMeta : Option (Except String Int) := none

/-- The result of one `local.CreateFS` call: a filesystem handle id plus
an optional cleanup obligation id, or an error. -/
inductive CreateFSResult where
  | ok (fs : Nat) (cleanup : Option Nat)
  | err (e : String)

/-- The external collaborators, as oracles over their observable results:
`createFS` takes the key, the ref and the timestamp `now` (the remaining
Go arguments, the session id, all refs, attestations and options, do not
influence which result this model observes); `getCaller` is
`SessionManager.Get`, `openWriter` is `filesync.CopyFileWriter`,
`writeTar` is `fsutil.WriteTar` applied to the composed filesystem (which
is `none` when the Go variable `fs` was never assigned, i.e. nil), and
`closeResult` is the error result of closing the write sink. -/
structure Collab where
  createFS : String → Nat → Int → CreateFSResult
  getCaller : Except String Unit := .ok ()
  openWriter : Except String Unit := .ok ()
  writeTar : Option FS → Option String := fun _ => none
  closeResult : Option String := none

/-- The observable trace of one `Export` call: the `CreateFS` invocations
in order (key and ref), the cleanup obligations collected in acquisition
order, the cleanup invocations actually run by the deferred loop, the
argument handed to the tar serializer (outer `none` when delivery was
never reached; inner `none` models a nil `fs`), and the sink open/close
events. -/
structure Trace where
  createFSCalls : List (String × Nat) := []
  cleanupsCollected : List Nat := []
  cleanupsRun : List Nat := []
  composedArg : Option (Option FS) := none
  sinkOpened : Bool := false
  sinkClosed : Nat := 0

/-- The outcome of one `Export` call: the returned error (Go returns a
`(nil, error)` pair; the map is always nil), the post-state of the
exporter instance, and the trace. -/
structure ExportOut where
  result : Except String Unit
  inst : ExporterInstance
  trace : Trace

/-- `uint32(os.ModeDir | 0755)`: bit 31 for the directory flag plus
permission bits 0o755 = 493. -/
def dirMode : Nat := 2147484141

/-- `strings.Replace(k, "/", "_", -1)`: every path separator in the key
is replaced by an underscore (the pattern is a single character, so the
replacement is character by character). -/
def sanitizeKey (k : String) : String :=
  String.mk (k.data.map fun c => if c = '/' then '_' else c)

/-- The stat entry built inside `getDir`: mode `os.ModeDir | 0755`, path
equal to the key with `/` replaced by `_`, and `ModTime` assigned
`Epoch.UnixNano()` only when the epoch option is set (otherwise it keeps
the Go zero value 0). -/
def dirStat (opts : CreateFSOpts) (k : String) : Stat :=
  { mode := dirMode
    path := sanitizeKey k
    modTime := match opts.epoch with | some e => e | none => 0 }

/-- The `getDir` closure of `Export`: call `local.CreateFS` for the key
and ref, propagate its error, otherwise build the `fsutil.Dir` with the
stat from `dirStat`, and hand back the cleanup obligation (the caller
appends it to the deferred list). -/
def getDirF (co : Collab) (opts : CreateFSOpts) (now : Int) (k : String) (r : Nat) :
    Except String (Dir × Option Nat) :=
  match co.createFS k r now with
  | .err e => .error e
  | .ok h cl => .ok ((dirStat opts k, FS.base h), cl)

/-- Boolean duplicate test on the list of entry names. -/
def pathsHaveDup : List String → Bool
  | [] => false
  | p :: rest => rest.contains p || pathsHaveDup rest

/-- Modelled from the spec: the union-filesystem collaborator
`fsutil.SubDirFS` (spec section 6), absent from the sources.  It merges
the named directories into one union view and fails if entry names
collide. -/
def subDirFS (dirs : List Dir) : Except String FS :=
  if pathsHaveDup (dirs.map fun d => d.1.path) then .error "duplicate directory name"
  else .ok (.subDir dirs)

/-- Lookup `refs[id]` in the platform-id to ref mapping. -/
def lookupRef (refs : List (String × Nat)) (id : String) : Option Nat :=
  (refs.find? fun kv => kv.1 == id).map fun kv => kv.2

/-- Turn an optional cleanup obligation into the list of obligations it
contributes to the deferred list. -/
def optList : Option Nat → List Nat
  | some c => [c]
  | none => []

/-- The epoch-defaulting prologue of `Export` (lines 103-109): when
`e.opts.Epoch` is nil, consult `epoch.ParseSource(inp)`; a parse error
aborts the export, a parsed value is assigned to `e.opts.Epoch` (a
mutation of the instance), absence leaves the instance unchanged. -/
def applySourceEpoch (inst : ExporterInstance) (src : Source) :
    Except String ExporterInstance :=
  match inst.opts.epoch with
  | some _ => .ok inst
  | none =>
    match src.epochMeta with
    | none => .ok inst
    | some (.error e) => .error e
    | some (.ok tm) => .ok { inst with opts := { inst.opts with epoch := some tm } }

/-- The override and conflict tail of the resolver (lines 153-158): an
explicit `MultiPlatform` override replaces the inferred `isMap`
unconditionally; then a false map mode with more than one declared
platform is a fatal conflict. -/
def finishResolve (opts : CreateFSOpts) (isMap : Bool) (ps : List String) :
    Except String (Bool × List String) :=
  let m : Bool := match opts.multiPlatform with | some b => b | none => isMap
  if m = false ∧ 1 < ps.length then
    .error "unable to export multiple platforms without map"
  else .ok (m, ps)

/-- The result-set resolver (lines 136-158): `isMap` starts as the
presence of mapped refs; a non-empty mapping without the platforms
metadata key is fatal; present non-empty metadata must decode, and more
than one declared platform forces `isMap` true; then the override and
conflict check of `finishResolve` run.  Returns the resolved map mode and
the declared platform list. -/
def resolveUseMap (opts : CreateFSOpts) (src : Source) :
    Except String (Bool × List String) :=
  let isMap0 : Bool := !src.refs.isEmpty
  match src.platformsMeta with
  | .absent =>
    if src.refs.isEmpty then finishResolve opts isMap0 []
    else .error "unable to export multiple refs, missing platforms mapping"
  | .emptyBytes => finishResolve opts isMap0 []
  | .malformed e => .error ("failed to parse platforms passed to exporter: " ++ e)
  | .valid ps => finishResolve opts (if 1 < ps.length then true else isMap0) ps

/-- The materialization loop over the declared platforms (lines 162-185),
threading the accumulated `fsutil.Dir` list.  For each platform id: a
missing ref is fatal before any call for it; otherwise `getDir` runs (one
`CreateFS` call, recorded first in the returned call list, its cleanup
obligation collected); in non-map mode the first directory's handle is
taken and the loop breaks; in map mode every directory is accumulated,
and at the end `SubDirFS` merges them.  In non-map mode with an empty
platform list the filesystem stays unassigned (`none`, a nil `fs`).
Returns the composed filesystem (or the error), the `CreateFS` calls in
order, and the cleanup obligations in acquisition order. -/
def materializeLoop (co : Collab) (opts : CreateFSOpts) (now : Int)
    (refs : List (String × Nat)) (isMap : Bool) :
    List String → List Dir →
      Except String (Option FS) × List (String × Nat) × List Nat
  | [], dirs =>
    if isMap then
      match subDirFS dirs with
      | .ok f => (.ok (some f), [], [])
      | .error e => (.error e, [], [])
    else (.ok none, [], [])
  | pid :: rest, dirs =>
    match lookupRef refs pid with
    | none => (.error ("failed to find ref for ID " ++ pid), [], [])
    | some r =>
      match getDirF co opts now pid r with
      | .error e => (.error e, [(pid, r)], [])
      | .ok (d, cl) =>
        if isMap then
          match materializeLoop co opts now refs isMap rest (dirs ++ [d]) with
          | (res, calls, cols) => (res, (pid, r) :: calls, optList cl ++ cols)
        else (.ok (some d.2), [(pid, r)], optList cl)

/-- The composition stage (lines 160-192): with mapped refs, run the
materialization loop over the declared platforms; with an empty mapping,
materialize the single ref under the empty-string key and take its
filesystem handle directly. -/
def composeStage (co : Collab) (opts : CreateFSOpts) (now : Int) (src : Source)
    (isMap : Bool) (ps : List String) :
    Except String (Option FS) × List (String × Nat) × List Nat :=
  if src.refs.isEmpty then
    match getDirF co opts now "" src.ref with
    | .error e => (.error e, [("", src.ref)], [])
    | .ok (d, cl) => (.ok (some d.2), [("", src.ref)], optList cl)
  else materializeLoop co opts now src.refs isMap ps []

/-- The transport delivery stage (lines 194-211): acquire the session
caller, open the write sink, then serialize with `WriteTar`; on a
serialization error the sink is closed and that error is returned; on
serialization success the close result is returned.  The trace marks the
sink as opened and counts the close calls. -/
def deliverStage (co : Collab) (fsOpt : Option FS) (tr : Trace) :
    Except String Unit × Trace :=
  match co.getCaller with
  | .error e => (.error e, tr)
  | .ok _ =>
    match co.openWriter with
    | .error e => (.error e, tr)
    | .ok _ =>
      let tr1 := { tr with sinkOpened := true, sinkClosed := 1 }
      match co.writeTar fsOpt with
      | some e => (.error e, tr1)
      | none =>
        match co.closeResult with
        | some e => (.error e, tr1)
        | none => (.ok (), tr1)

/-- The trace state entering delivery: the materialization calls, the
collected cleanup obligations, and the composed filesystem about to be
serialized. -/
def preTrace (calls : List (String × Nat)) (cols : List Nat) (fsOpt : Option FS) :
    Trace :=
  { createFSCalls := calls, cleanupsCollected := cols, composedArg := some fsOpt }

/-- The body of `Export` before the deferred cleanup loop runs: epoch
prologue, resolver, composition stage, delivery.  Returns the result, the
(possibly mutated) instance, and the trace without the cleanup runs. -/
def exportBody (inst : ExporterInstance) (src : Source) (co : Collab) (now : Int) :
    Except String Unit × ExporterInstance × Trace :=
  match applySourceEpoch inst src with
  | .error e => (.error e, inst, {})
  | .ok inst1 =>
    match resolveUseMap inst1.opts src with
    | .error e => (.error e, inst1, {})
    | .ok (isMap, ps) =>
      match composeStage co inst1.opts now src isMap ps with
      | (.error e, calls, cols) =>
        (.error e, inst1, { createFSCalls := calls, cleanupsCollected := cols })
      | (.ok fsOpt, calls, cols) =>
        match deliverStage co fsOpt (preTrace calls cols fsOpt) with
        | (res, tr) => (res, inst1, tr)

/-- `localExporterInstance.Export` (lines 94-212).  The deferred loop at
lines 97-101 runs every collected cleanup obligation, in reverse order of
collection, on every return path; the trace records those runs. -/
def Export (inst : ExporterInstance) (src : Source) (co : Collab) (now : Int) :
    ExportOut :=
  match exportBody inst src co now with
  | (res, inst1, tr) =>
    { result := res, inst := inst1,
      trace := { tr with cleanupsRun := tr.cleanupsCollected.reverse } }

/-- A benign collaborator for concrete runs: materializing ref `r` yields
handle `100 + r` with cleanup obligation `200 + r`; transport acquisition,
serialization and sink close all succeed. -/
def coStd : Collab :=
  { createFS := fun _ r _ => .ok (100 + r) (some (200 + r)) }

/-- A collaborator whose tar serialization and sink close both fail. -/
def coTarFail : Collab :=
  { createFS := fun _ r _ => .ok (100 + r) (some (200 + r))
    writeTar := fun _ => some "tar write failed"
    closeResult := some "close failed" }

/-- An instance with an explicit epoch and map mode overridden off. -/
def instOvFalse : ExporterInstance :=
  { opts := { epoch := some 0, multiPlatform := some false } }

/-- An instance with an explicit epoch and no override. -/
def instPlain : ExporterInstance := { opts := { epoch := some 0 } }

/-- An instance with no epoch set and no override. -/
def instNoEpoch : ExporterInstance := { opts := {} }

/-- A mapped source declaring two platforms with both refs present. -/
def srcTwo : Source :=
  { ref := 0, refs := [("a", 1), ("b", 2)], platformsMeta := .valid ["a", "b"] }

/-- A mapped source declaring two platforms, with no ref for the second. -/
def srcMissingB : Source :=
  { ref := 0, refs := [("a", 1)], platformsMeta := .valid ["a", "b"] }

/-- A mapped source whose platforms entry decodes to an empty list. -/
def srcZeroValid : Source :=
  { ref := 0, refs := [("a", 1)], platformsMeta := .valid [] }

/-- A mapped source whose platforms entry is present with zero bytes. -/
def srcZeroBytes : Source :=
  { ref := 0, refs := [("a", 1)], platformsMeta := .emptyBytes }

/-- A mapped source with one declared platform whose ref is present. -/
def srcOne : Source :=
  { ref := 0, refs := [("a", 1)], platformsMeta := .valid ["a"] }

/-- A mapped source lacking the platforms metadata key. -/
def srcNoMeta : Source :=
  { ref := 0, refs := [("a", 1)], platformsMeta := .absent }

/-- A single-ref source (empty ref mapping). -/
def srcSingle : Source := { ref := 3 }

/-- A single-ref source carrying a parsable source epoch of 7. -/
def srcEpoch : Source := { ref := 3, epochMeta := some (.ok 7) }

/-- The epoch prologue touches only the epoch option: every other
configuration field of the instance is preserved. -/
theorem applySourceEpoch_opts (inst inst1 : ExporterInstance) (src : Source)
    (h : applySourceEpoch inst src = .ok inst1) :
    inst1.opts.multiPlatform = inst.opts.multiPlatform ∧
    inst1.opts.attestationPfx = inst.opts.attestationPfx ∧
    inst1.preferNonDist = inst.preferNonDist := by
  unfold applySourceEpoch at h
  cases he : inst.opts.epoch with
  | some t => simp [he] at h; simp [← h]
  | none =>
    cases hm : src.epochMeta with
    | none => simp [he, hm] at h; simp [← h]
    | some r =>
      cases r with
      | error e => simp [he, hm] at h
      | ok tm => simp [he, hm] at h; simp [← h]

/-- On the epoch prologue, the epoch option of the result is the old one
when it was set or the source had none, and the parsed source value when
the old one was unset. -/
theorem applySourceEpoch_epoch (inst inst1 : ExporterInstance) (src : Source)
    (h : applySourceEpoch inst src = .ok inst1) :
    ((inst.opts.epoch ≠ none ∨ src.epochMeta = none) →
      inst1.opts.epoch = inst.opts.epoch) ∧
    (∀ t, inst.opts.epoch = none → src.epochMeta = some (.ok t) →
      inst1.opts.epoch = some t) := by
  unfold applySourceEpoch at h
  cases he : inst.opts.epoch with
  | some t => simp [he] at h; simp [← h, he]
  | none =>
    cases hm : src.epochMeta with
    | none => simp [he, hm] at h; simp [← h, he]
    | some r =>
      cases r with
      | error e => simp [he, hm] at h
      | ok tm => simp [he, hm] at h; simp [← h, he, hm]

/-- Delivery never touches the materialization part of the trace. -/
theorem deliverStage_preserves (co : Collab) (fsOpt : Option FS) (tr : Trace) :
    (deliverStage co fsOpt tr).2.createFSCalls = tr.createFSCalls ∧
    (deliverStage co fsOpt tr).2.cleanupsCollected = tr.cleanupsCollected ∧
    (deliverStage co fsOpt tr).2.composedArg = tr.composedArg := by
  unfold deliverStage
  cases co.getCaller with
  | error e => simp
  | ok u =>
    cases co.openWriter with
    | error e => simp
    | ok u2 =>
      cases co.writeTar fsOpt with
      | some e => simp
      | none => cases co.closeResult <;> simp

/-- When the platform list is a prefix of successfully materializable
platforms followed by an id with no ref, the loop fails with the missing
ref error for that id and has called `CreateFS` exactly once per prefix
platform.  In non-map mode this needs the prefix to be empty, since the
loop breaks after the first success. -/
theorem materializeLoop_missing (co : Collab) (opts : CreateFSOpts) (now : Int)
    (refs : List (String × Nat)) (isMap : Bool) (pid : String) (rest : List String)
    (hmiss : lookupRef refs pid = none) :
    ∀ (qs : List String) (dirs : List Dir),
      (∀ q ∈ qs, ∃ r h cl, lookupRef refs q = some r ∧
        co.createFS q r now = .ok h cl) →
      (isMap = true ∨ qs = []) →
      ∃ calls cols,
        materializeLoop co opts now refs isMap (qs ++ pid :: rest) dirs =
          (.error ("failed to find ref for ID " ++ pid), calls, cols) ∧
        calls.length = qs.length := by
  intro qs
  induction qs with
  | nil =>
    intro dirs _ _
    exact ⟨[], [], by simp [materializeLoop, hmiss], rfl⟩
  | cons q qs ih =>
    intro dirs hpre hm
    obtain ⟨r, h, cl, hlq, hcq⟩ := hpre q (by simp)
    have hm2 : isMap = true := by
      rcases hm with h1 | h1
      · exact h1
      · simp at h1
    obtain ⟨calls, cols, heq, hlen⟩ :=
      ih (dirs ++ [(dirStat opts q, FS.base h)])
        (fun x hx => hpre x (List.mem_cons_of_mem q hx)) (Or.inl hm2)
    refine ⟨(q, r) :: calls, optList cl ++ cols, ?_, by simp [hlen]⟩
    rw [hm2] at heq
    simp [materializeLoop, hlq, getDirF, hcq, hm2, heq]

/-- A successful run of the loop yields an unassigned (nil) filesystem
exactly when map mode is off and the platform list was empty. -/
theorem materializeLoop_ok_none (co : Collab) (opts : CreateFSOpts) (now : Int)
    (refs : List (String × Nat)) (isMap : Bool) :
    ∀ (ps : List String) (dirs : List Dir) (fsOpt : Option FS)
      (calls : List (String × Nat)) (cols : List Nat),
      materializeLoop co opts now refs isMap ps dirs = (.ok fsOpt, calls, cols) →
      (fsOpt = none ↔ (isMap = false ∧ ps = [])) := by
  intro ps
  induction ps with
  | nil =>
    intro dirs fsOpt calls cols h
    cases hm : isMap with
    | true =>
      cases hs : subDirFS dirs with
      | error e => simp [materializeLoop, hm, hs] at h
      | ok f =>
        simp [materializeLoop, hm, hs] at h
        simp [← h.1, hm]
    | false =>
      simp [materializeLoop, hm] at h
      simp [← h.1, hm]
  | cons pid rest ih =>
    intro dirs fsOpt calls cols h
    cases hl : lookupRef refs pid with
    | none => simp [materializeLoop, hl] at h
    | some r =>
      cases hc : co.createFS pid r now with
      | err e => simp [materializeLoop, hl, getDirF, hc] at h
      | ok h0 cl =>
        cases hm : isMap with
        | true =>
          cases hrec : materializeLoop co opts now refs isMap rest
              (dirs ++ [(dirStat opts pid, FS.base h0)]) with
          | mk res rest2 =>
            rw [hm] at hrec
            simp [materializeLoop, hl, getDirF, hc, hm, hrec] at h
            cases res with
            | error e => simp at h
            | ok fsOpt2 =>
              have := ih _ _ _ _ (by rw [hm]; exact hrec)
              simp at h
              rw [h.1] at this
              simp [hm] at this ⊢
              exact this
        | false =>
          simp [materializeLoop, hl, getDirF, hc, hm] at h
          simp [← h.1, hm]

/-- The instance returned by `Export` is exactly the one the epoch
prologue produced (the original instance when the prologue failed). -/
theorem export_inst (inst : ExporterInstance) (src : Source) (co : Collab) (now : Int) :
    (Export inst src co now).inst =
      (match applySourceEpoch inst src with
       | .error _ => inst
       | .ok inst1 => inst1) := by
  unfold Export exportBody
  cases hae : applySourceEpoch inst src with
  | error e => simp
  | ok inst1 =>
    cases hres : resolveUseMap inst1.opts src with
    | error e => simp [hres]
    | ok mps =>
      cases hc : composeStage co inst1.opts now src mps.1 mps.2 with
      | mk r rest =>
        cases r with
        | error e => simp [hres, hc]
        | ok fsOpt =>
          cases hd : deliverStage co fsOpt
            { createFSCalls := rest.1, cleanupsCollected := rest.2,
              composedArg := some fsOpt } with
          | mk res tr => simp [hres, hc, hd]

/-- When the resolver and the composition stage succeed, the trace of
`Export` carries the composition stage's calls, collected cleanups and
composed filesystem unchanged through delivery. -/
theorem export_ok_trace (inst inst1 : ExporterInstance) (src : Source) (co : Collab)
    (now : Int) (isMap : Bool) (ps : List String) (fsOpt : Option FS)
    (calls : List (String × Nat)) (cols : List Nat)
    (hep : applySourceEpoch inst src = .ok inst1)
    (hres : resolveUseMap inst1.opts src = .ok (isMap, ps))
    (hcomp : composeStage co inst1.opts now src isMap ps = (.ok fsOpt, calls, cols)) :
    (Export inst src co now).trace.createFSCalls = calls ∧
    (Export inst src co now).trace.cleanupsCollected = cols ∧
    (Export inst src co now).trace.composedArg = some fsOpt := by
  have hpres := deliverStage_preserves co fsOpt (preTrace calls cols fsOpt)
  cases hd : deliverStage co fsOpt (preTrace calls cols fsOpt) with
  | mk res tr =>
    rw [hd] at hpres
    simp only [Export, exportBody, hep, hres, hcomp, hd]
    simp [preTrace] at hpres ⊢
    exact hpres

/-- When the resolver succeeds but the composition stage fails, `Export`
returns that error and its trace carries the stage's calls and collected
cleanups. -/
theorem export_err_trace (inst inst1 : ExporterInstance) (src : Source) (co : Collab)
    (now : Int) (isMap : Bool) (ps : List String) (e : String)
    (calls : List (String × Nat)) (cols : List Nat)
    (hep : applySourceEpoch inst src = .ok inst1)
    (hres : resolveUseMap inst1.opts src = .ok (isMap, ps))
    (hcomp : composeStage co inst1.opts now src isMap ps = (.error e, calls, cols)) :
    (Export inst src co now).result = .error e ∧
    (Export inst src co now).trace.createFSCalls = calls ∧
    (Export inst src co now).trace.cleanupsCollected = cols ∧
    (Export inst src co now).trace.composedArg = none ∧
    (Export inst src co now).trace.sinkOpened = false := by
  simp only [Export, exportBody, hep, hres, hcomp]
  simp

/-- A failure of the epoch prologue aborts the export with an empty
trace. -/
theorem export_epoch_err (inst : ExporterInstance) (src : Source) (co : Collab)
    (now : Int) (e : String)
    (hae : applySourceEpoch inst src = .error e) :
    (Export inst src co now).result = .error e ∧
    (Export inst src co now).trace = {} := by
  simp only [Export, exportBody, hae]
  simp

/-- A failure of the resolver aborts the export with an empty trace. -/
theorem export_resolve_err (inst inst1 : ExporterInstance) (src : Source) (co : Collab)
    (now : Int) (e : String)
    (hep : applySourceEpoch inst src = .ok inst1)
    (hres : resolveUseMap inst1.opts src = .error e) :
    (Export inst src co now).result = .error e ∧
    (Export inst src co now).trace = {} := by
  simp only [Export, exportBody, hep, hres]
  simp

/-- When the pipeline reaches delivery, the result and sink events of
`Export` are those of the delivery stage. -/
theorem export_ok_delivery (inst inst1 : ExporterInstance) (src : Source) (co : Collab)
    (now : Int) (isMap : Bool) (ps : List String) (fsOpt : Option FS)
    (calls : List (String × Nat)) (cols : List Nat)
    (hep : applySourceEpoch inst src = .ok inst1)
    (hres : resolveUseMap inst1.opts src = .ok (isMap, ps))
    (hcomp : composeStage co inst1.opts now src isMap ps = (.ok fsOpt, calls, cols)) :
    (Export inst src co now).result =
      (deliverStage co fsOpt (preTrace calls cols fsOpt)).1 ∧
    (Export inst src co now).trace.sinkOpened =
      (deliverStage co fsOpt (preTrace calls cols fsOpt)).2.sinkOpened ∧
    (Export inst src co now).trace.sinkClosed =
      (deliverStage co fsOpt (preTrace calls cols fsOpt)).2.sinkClosed := by
  cases hd : deliverStage co fsOpt (preTrace calls cols fsOpt) with
  | mk res tr =>
    simp only [Export, exportBody, hep, hres, hcomp, hd]
    simp

/-- Once the sink is opened, delivery closes it exactly once; a
serialization error is the surfaced result, and on serialization success
the close result is surfaced. -/
theorem deliverStage_sink (co : Collab) (fsOpt : Option FS) (tr : Trace)
    (h0 : tr.sinkOpened = false)
    (hop : (deliverStage co fsOpt tr).2.sinkOpened = true) :
    (deliverStage co fsOpt tr).2.sinkClosed = 1 ∧
    (∀ e, co.writeTar fsOpt = some e → (deliverStage co fsOpt tr).1 = .error e) ∧
    (co.writeTar fsOpt = none →
      (deliverStage co fsOpt tr).1 =
        (match co.closeResult with | some e => .error e | none => .ok ())) := by
  cases hg : co.getCaller with
  | error e => simp [deliverStage, hg, h0] at hop
  | ok u =>
    cases ho : co.openWriter with
    | error e => simp [deliverStage, hg, ho, h0] at hop
    | ok u2 =>
      cases hw : co.writeTar fsOpt with
      | some e => simp [deliverStage, hg, ho, hw]
      | none =>
        cases hc : co.closeResult with
        | some e => simp [deliverStage, hg, ho, hw, hc]
        | none => simp [deliverStage, hg, ho, hw, hc]

/-- With an explicit override, the override tail of the resolver either
fails or returns exactly the overridden value. -/
theorem finishResolve_override (opts : CreateFSOpts) (b isMap : Bool)
    (ps : List String) (m : Bool) (qs : List String)
    (hov : opts.multiPlatform = some b)
    (h : finishResolve opts isMap ps = .ok (m, qs)) : m = b := by
  unfold finishResolve at h
  simp only [hov] at h
  split at h
  · simp at h
  · simp at h
    exact h.1.symm

/-- Claim C1: when the multi-platform override is set, its value
unconditionally replaces the `useMap` value inferred from ref-mapping
presence and platform count; and if after this override `useMap` is false
while the platforms descriptor lists more than one platform, `Export`
fails with the multiple-platforms-without-map fatal error before any
materialization. -/
theorem c1_override_precedence_and_conflict
    (inst inst1 : ExporterInstance) (src : Source) (co : Collab) (now : Int)
    (b : Bool) (ps : List String)
    (hep : applySourceEpoch inst src = .ok inst1)
    (hov : inst.opts.multiPlatform = some b) :
    (∀ m qs, resolveUseMap inst1.opts src = .ok (m, qs) → m = b) ∧
    (src.platformsMeta = .valid ps → 1 < ps.length → b = false →
      (Export inst src co now).result =
        .error "unable to export multiple platforms without map" ∧
      (Export inst src co now).trace.createFSCalls = []) := by
  have hmp : inst1.opts.multiPlatform = some b := by
    rw [(applySourceEpoch_opts inst inst1 src hep).1, hov]
  constructor
  · intro m qs h
    unfold resolveUseMap at h
    cases hpm : src.platformsMeta with
    | absent =>
      rw [hpm] at h
      simp only [] at h
      split at h
      · exact finishResolve_override inst1.opts b _ _ m qs hmp h
      · simp at h
    | emptyBytes =>
      rw [hpm] at h
      exact finishResolve_override inst1.opts b _ _ m qs hmp h
    | malformed e =>
      rw [hpm] at h
      simp at h
    | valid ps2 =>
      rw [hpm] at h
      exact finishResolve_override inst1.opts b _ _ m qs hmp h
  · intro hmeta hlen hb
    subst hb
    have hres : resolveUseMap inst1.opts src =
        .error "unable to export multiple platforms without map" := by
      simp [resolveUseMap, hmeta, finishResolve, hmp, hlen]
    have h := export_resolve_err inst inst1 src co now _ hep hres
    exact ⟨h.1, by rw [h.2]⟩

/-- Claim C1 witness: a two-platform mapped result with the override set
to false fails with the conflict error and zero materialization calls. -/
theorem c1_witness :
    (Export instOvFalse srcTwo coStd 0).result =
      .error "unable to export multiple platforms without map" ∧
    (Export instOvFalse srcTwo coStd 0).trace.createFSCalls = [] :=
  (c1_override_precedence_and_conflict instOvFalse instOvFalse srcTwo coStd 0
    false ["a", "b"] rfl rfl).2 rfl (by decide) rfl

/-- Claim C2 counterexample: a mapped input whose platforms entry lists
zero platforms, with map mode resolved to false, materializes zero
directories (not exactly one), yet `Export` succeeds. -/
theorem c2_cex :
    srcZeroValid.refs.isEmpty = false ∧
    resolveUseMap instOvFalse.opts srcZeroValid = .ok (false, []) ∧
    (Export instOvFalse srcZeroValid coStd 0).trace.createFSCalls = [] ∧
    (Export instOvFalse srcZeroValid coStd 0).result = .ok () :=
  ⟨rfl, rfl, rfl, rfl⟩

/-- Claim C2 (amended): for every mapped input with resolved map mode
false whose platforms descriptor lists at least one platform, and whose
first listed platform has a ref that materializes successfully, `Export`
invokes `CreateFS` exactly once — for that first ref, never for the
remaining listed platforms — and the composed filesystem is that single
directory's handle. -/
theorem c2_first_ref_only
    (inst inst1 : ExporterInstance) (src : Source) (co : Collab) (now : Int)
    (pid : String) (rest : List String) (r h0 : Nat) (cl : Option Nat)
    (hep : applySourceEpoch inst src = .ok inst1)
    (hres : resolveUseMap inst1.opts src = .ok (false, pid :: rest))
    (hrefs : src.refs.isEmpty = false)
    (hlook : lookupRef src.refs pid = some r)
    (hcfs : co.createFS pid r now = .ok h0 cl) :
    (Export inst src co now).trace.createFSCalls = [(pid, r)] ∧
    (Export inst src co now).trace.composedArg = some (some (FS.base h0)) := by
  have hcomp : composeStage co inst1.opts now src false (pid :: rest) =
      (.ok (some (FS.base h0)), [(pid, r)], optList cl) := by
    simp [composeStage, hrefs, materializeLoop, hlook, getDirF, hcfs]
  have htr := export_ok_trace inst inst1 src co now false (pid :: rest)
    (some (FS.base h0)) [(pid, r)] (optList cl) hep hres hcomp
  exact ⟨htr.1, htr.2.2⟩

/-- Claim C2 witness: a one-platform mapped input with the override set
to false materializes exactly the first ref and aliases its handle. -/
theorem c2_witness :
    (Export instOvFalse srcOne coStd 0).trace.createFSCalls = [("a", 1)] ∧
    (Export instOvFalse srcOne coStd 0).trace.composedArg =
      some (some (FS.base 101)) :=
  c2_first_ref_only instOvFalse instOvFalse srcOne coStd 0 "a" [] 1 101 (some 201)
    rfl rfl rfl rfl rfl

/-- Claim C3 counterexample: a mapped input in map mode whose second
listed platform has no ref fails with the missing ref error, but only
after one materialization call for the first platform — not zero. -/
theorem c3_cex :
    srcMissingB.refs.isEmpty = false ∧
    (Export instPlain srcMissingB coStd 0).result =
      .error "failed to find ref for ID b" ∧
    (Export instPlain srcMissingB coStd 0).trace.createFSCalls = [("a", 1)] :=
  ⟨rfl, rfl, rfl⟩

/-- Claim C3 (amended): for every mapped input reaching the materializer
whose platform list splits as a prefix of successfully materializable
platforms followed by an id with no ref (the prefix empty unless map mode
is true), `Export` fails with the missing ref error identifying that id,
and `CreateFS` is invoked exactly once per prefix platform — in
particular zero times when the missing id is listed first. -/
theorem c3_missing_ref
    (inst inst1 : ExporterInstance) (src : Source) (co : Collab) (now : Int)
    (m : Bool) (qs : List String) (pid : String) (rest : List String)
    (hep : applySourceEpoch inst src = .ok inst1)
    (hres : resolveUseMap inst1.opts src = .ok (m, qs ++ pid :: rest))
    (hrefs : src.refs.isEmpty = false)
    (hmiss : lookupRef src.refs pid = none)
    (hpre : ∀ q ∈ qs, ∃ r h cl, lookupRef src.refs q = some r ∧
      co.createFS q r now = .ok h cl)
    (hm : m = true ∨ qs = []) :
    (Export inst src co now).result =
      .error ("failed to find ref for ID " ++ pid) ∧
    (Export inst src co now).trace.createFSCalls.length = qs.length := by
  obtain ⟨calls, cols, heq, hlen⟩ :=
    materializeLoop_missing co inst1.opts now src.refs m pid rest hmiss qs [] hpre hm
  have hcomp : composeStage co inst1.opts now src m (qs ++ pid :: rest) =
      (.error ("failed to find ref for ID " ++ pid), calls, cols) := by
    simp [composeStage, hrefs, heq]
  have h := export_err_trace inst inst1 src co now m (qs ++ pid :: rest) _ calls cols
    hep hres hcomp
  exact ⟨h.1, by rw [h.2.1, hlen]⟩

/-- Claim C3 witness: with the missing platform listed second in map
mode, the missing ref error is raised after exactly one prefix
materialization. -/
theorem c3_witness :
    (Export instPlain srcMissingB coStd 0).result =
      .error ("failed to find ref for ID " ++ "b") ∧
    (Export instPlain srcMissingB coStd 0).trace.createFSCalls.length = 1 := by
  have h := c3_missing_ref instPlain instPlain srcMissingB coStd 0 true ["a"] "b" []
    rfl rfl rfl rfl
    (by intro q hq; simp at hq; subst hq; exact ⟨1, 101, some 201, rfl, rfl⟩)
    (Or.inl rfl)
  simpa using h

/-- Claim C4: on every run of `Export`, whatever the outcome, every
cleanup obligation collected from materialization is invoked exactly
once, in reverse order of acquisition, before `Export` returns. -/
theorem c4_cleanups_reverse
    (inst : ExporterInstance) (src : Source) (co : Collab) (now : Int) :
    (Export inst src co now).trace.cleanupsRun =
      (Export inst src co now).trace.cleanupsCollected.reverse := by
  unfold Export
  cases h : exportBody inst src co now with
  | mk res rest => simp

/-- Claim C5: a non-empty ref mapping whose metadata lacks the platforms
descriptor entry fails with the missing platforms mapping fatal error
before any materialization, for any non-zero number of mapped refs. -/
theorem c5_missing_platforms_mapping
    (inst inst1 : ExporterInstance) (src : Source) (co : Collab) (now : Int)
    (hep : applySourceEpoch inst src = .ok inst1)
    (hrefs : src.refs.isEmpty = false)
    (hmeta : src.platformsMeta = .absent) :
    (Export inst src co now).result =
      .error "unable to export multiple refs, missing platforms mapping" ∧
    (Export inst src co now).trace.createFSCalls = [] := by
  have hres : resolveUseMap inst1.opts src =
      .error "unable to export multiple refs, missing platforms mapping" := by
    simp [resolveUseMap, hmeta, hrefs]
  have h := export_resolve_err inst inst1 src co now _ hep hres
  exact ⟨h.1, by rw [h.2]⟩

/-- Claim C5 witness: a single mapped ref without the platforms metadata
entry already triggers the error with zero materialization calls. -/
theorem c5_witness :
    (Export instPlain srcNoMeta coStd 0).result =
      .error "unable to export multiple refs, missing platforms mapping" ∧
    (Export instPlain srcNoMeta coStd 0).trace.createFSCalls = [] :=
  c5_missing_platforms_mapping instPlain instPlain srcNoMeta coStd 0 rfl rfl rfl

/-- Claim C6: for every single-ref input (empty ref mapping), whatever
the override value, the filesystem passed to delivery is exactly the
handle returned by materializing the single ref under the empty-string
key — no `SubDirFS` wrapping, no name prefix. -/
theorem c6_single_ref_direct_alias
    (inst : ExporterInstance) (src : Source) (co : Collab) (now : Int)
    (h0 : Nat) (cl : Option Nat) (f : Option FS)
    (hrefs : src.refs = [])
    (hcfs : co.createFS "" src.ref now = .ok h0 cl)
    (hcomp : (Export inst src co now).trace.composedArg = some f) :
    f = some (FS.base h0) ∧
    (Export inst src co now).trace.createFSCalls = [("", src.ref)] := by
  cases hae : applySourceEpoch inst src with
  | error e =>
    have h := export_epoch_err inst src co now e hae
    rw [h.2] at hcomp
    simp at hcomp
  | ok inst1 =>
    cases hres : resolveUseMap inst1.opts src with
    | error e =>
      have h := export_resolve_err inst inst1 src co now e hae hres
      rw [h.2] at hcomp
      simp at hcomp
    | ok mps =>
      have hre : src.refs.isEmpty = true := by rw [hrefs]; rfl
      have hc : composeStage co inst1.opts now src mps.1 mps.2 =
          (.ok (some (FS.base h0)), [("", src.ref)], optList cl) := by
        simp [composeStage, hre, getDirF, hcfs]
      have htr := export_ok_trace inst inst1 src co now mps.1 mps.2
        (some (FS.base h0)) [("", src.ref)] (optList cl) hae hres hc
      rw [htr.2.2] at hcomp
      injection hcomp with hf
      exact ⟨hf.symm, htr.1⟩

/-- Claim C6 witness: a single-ref source materialized under the empty
key aliases that handle directly. -/
theorem c6_witness :
    (some (FS.base 103) : Option FS) = some (FS.base 103) ∧
    (Export instPlain srcSingle coStd 0).trace.createFSCalls = [("", 3)] :=
  c6_single_ref_direct_alias instPlain srcSingle coStd 0 103 (some 203)
    (some (FS.base 103)) rfl rfl rfl

/-- Claim C7: on every exit path after the write sink is opened the sink
is closed before `Export` returns; a serialization failure is the error
surfaced (not the close error); on serialization success the close result
is the error surfaced. -/
theorem c7_sink_closed
    (inst : ExporterInstance) (src : Source) (co : Collab) (now : Int)
    (hop : (Export inst src co now).trace.sinkOpened = true) :
    (Export inst src co now).trace.sinkClosed = 1 ∧
    (∀ f e, (Export inst src co now).trace.composedArg = some f →
      co.writeTar f = some e → (Export inst src co now).result = .error e) ∧
    (∀ f, (Export inst src co now).trace.composedArg = some f →
      co.writeTar f = none →
      (Export inst src co now).result =
        (match co.closeResult with | some e => .error e | none => .ok ())) := by
  cases hae : applySourceEpoch inst src with
  | error e =>
    have h := export_epoch_err inst src co now e hae
    rw [h.2] at hop
    simp at hop
  | ok inst1 =>
    cases hres : resolveUseMap inst1.opts src with
    | error e =>
      have h := export_resolve_err inst inst1 src co now e hae hres
      rw [h.2] at hop
      simp at hop
    | ok mps =>
      cases hcs : composeStage co inst1.opts now src mps.1 mps.2 with
      | mk r cc =>
        cases r with
        | error e =>
          have h := export_err_trace inst inst1 src co now mps.1 mps.2 e cc.1 cc.2
            hae hres hcs
          rw [h.2.2.2.2] at hop
          simp at hop
        | ok fsOpt =>
          have hdel := export_ok_delivery inst inst1 src co now mps.1 mps.2 fsOpt
            cc.1 cc.2 hae hres hcs
          have htr := export_ok_trace inst inst1 src co now mps.1 mps.2 fsOpt
            cc.1 cc.2 hae hres hcs
          rw [hdel.2.1] at hop
          obtain ⟨hcl, hw, hok⟩ :=
            deliverStage_sink co fsOpt (preTrace cc.1 cc.2 fsOpt) rfl hop
          refine ⟨by rw [hdel.2.2]; exact hcl, ?_, ?_⟩
          · intro f e hcf hwt
            rw [htr.2.2] at hcf
            injection hcf with hf
            rw [hdel.1]
            exact hw e (by rw [hf]; exact hwt)
          · intro f hcf hwt
            rw [htr.2.2] at hcf
            injection hcf with hf
            rw [hdel.1]
            exact hok (by rw [hf]; exact hwt)

/-- Claim C7 witness: with failing serialization and failing close, the
serialization error is surfaced and the sink was closed once. -/
theorem c7_witness :
    (Export instPlain srcSingle coTarFail 0).trace.sinkClosed = 1 ∧
    (Export instPlain srcSingle coTarFail 0).result = .error "tar write failed" :=
  ⟨(c7_sink_closed instPlain srcSingle coTarFail 0 rfl).1,
   (c7_sink_closed instPlain srcSingle coTarFail 0 rfl).2.1
     (some (FS.base 103)) "tar write failed" rfl rfl⟩

/-- Claim C8 counterexample: with no epoch configured and the
second-truncated current time equal to 5, the materialized directory's
stat entry carries modification time 0 (the unassigned zero value), not
5: the stat modTime is not the real time of materialization. -/
theorem c8_cex :
    getDirF coStd instNoEpoch.opts 5 "" 0 =
      .ok ((dirStat instNoEpoch.opts "", FS.base 100), some 200) ∧
    (dirStat instNoEpoch.opts "").modTime = 0 ∧
    (dirStat instNoEpoch.opts "").modTime ≠ 5 :=
  ⟨rfl, rfl, by decide⟩

/-- Claim C8 (amended): every materialized directory's stat entry carries
the configured epoch (in nanoseconds) as modification time when an epoch
is present, and otherwise the field is left at the zero value — the
current time is passed to the materialization collaborator for file
mtimes but never written into the directory stat entry. -/
theorem c8_stat_modtime
    (co : Collab) (opts : CreateFSOpts) (now : Int) (k : String)
    (r h0 : Nat) (cl : Option Nat)
    (hcfs : co.createFS k r now = .ok h0 cl) :
    getDirF co opts now k r = .ok ((dirStat opts k, FS.base h0), cl) ∧
    (dirStat opts k).modTime =
      (match opts.epoch with | some e => e | none => 0) := by
  constructor
  · simp [getDirF, hcfs]
  · rfl

/-- Claim C8 witness: with epoch 0 configured, the stat modification time
is the epoch value regardless of the current time 5. -/
theorem c8_witness :
    getDirF coStd instPlain.opts 5 "a" 1 =
      .ok ((dirStat instPlain.opts "a", FS.base 101), some 201) ∧
    (dirStat instPlain.opts "a").modTime = 0 :=
  ⟨(c8_stat_modtime coStd instPlain.opts 5 "a" 1 101 (some 201) rfl).1, rfl⟩

/-- Claim C9 counterexample: an instance with no epoch configured,
exporting a source that carries a parsable epoch, completes successfully
yet ends with its epoch option mutated to the source value — the
configuration is not restored across invocations. -/
theorem c9_cex :
    instNoEpoch.opts.epoch = none ∧
    (Export instNoEpoch srcEpoch coStd 0).result = .ok () ∧
    (Export instNoEpoch srcEpoch coStd 0).inst.opts.epoch = some 7 :=
  ⟨rfl, rfl, rfl⟩

/-- Claim C9 (amended): `Export` leaves the override, attestation prefix
and layer-preference configuration unchanged, and leaves the epoch option
unchanged whenever it was already set or the source carries no epoch; but
when the epoch was unset and the source provides one, `Export` stores it
into the instance, and that mutation persists for later calls. -/
theorem c9_config_frame
    (inst : ExporterInstance) (src : Source) (co : Collab) (now : Int) :
    (Export inst src co now).inst.opts.multiPlatform = inst.opts.multiPlatform ∧
    (Export inst src co now).inst.opts.attestationPfx = inst.opts.attestationPfx ∧
    (Export inst src co now).inst.preferNonDist = inst.preferNonDist ∧
    ((inst.opts.epoch ≠ none ∨ src.epochMeta = none) →
      (Export inst src co now).inst.opts.epoch = inst.opts.epoch) ∧
    (∀ t, inst.opts.epoch = none → src.epochMeta = some (.ok t) →
      (Export inst src co now).inst.opts.epoch = some t) := by
  rw [export_inst inst src co now]
  cases hae : applySourceEpoch inst src with
  | error e =>
    refine ⟨rfl, rfl, rfl, fun _ => rfl, ?_⟩
    intro t h1 h2
    simp [applySourceEpoch, h1, h2] at hae
  | ok inst1 =>
    obtain ⟨hm, ha, hp⟩ := applySourceEpoch_opts inst inst1 src hae
    obtain ⟨he1, he2⟩ := applySourceEpoch_epoch inst inst1 src hae
    exact ⟨hm, ha, hp, he1, he2⟩

/-- Claim C9 witness: the persisting-epoch branch of the frame theorem at
a concrete input. -/
theorem c9_witness :
    (Export instNoEpoch srcEpoch coStd 0).inst.opts.epoch = some 7 :=
  (c9_config_frame instNoEpoch srcEpoch coStd 0).2.2.2.2 7 rfl rfl

/-- Claim C10 counterexample: a mapped input whose platforms metadata
entry is present but empty, with map mode resolved to false, passes all
resolver checks yet hands the unassigned nil filesystem to the tar
serializer. -/
theorem c10_cex :
    srcZeroBytes.refs.isEmpty = false ∧
    resolveUseMap instOvFalse.opts srcZeroBytes = .ok (false, []) ∧
    (Export instOvFalse srcZeroBytes coStd 0).trace.composedArg = some none ∧
    (Export instOvFalse srcZeroBytes coStd 0).result = .ok () :=
  ⟨rfl, rfl, rfl, rfl⟩

/-- Claim C10 (amended): the filesystem handed to the tar serializer is
nil precisely when the ref mapping is non-empty, the resolved map mode is
false, and the platforms descriptor lists zero platforms; in every other
delivery-reaching case it is a constructed value. -/
theorem c10_nil_fs_characterization
    (inst inst1 : ExporterInstance) (src : Source) (co : Collab) (now : Int)
    (m : Bool) (ps : List String) (f : Option FS)
    (hep : applySourceEpoch inst src = .ok inst1)
    (hres : resolveUseMap inst1.opts src = .ok (m, ps))
    (hcomp : (Export inst src co now).trace.composedArg = some f) :
    (f = none ↔ (src.refs.isEmpty = false ∧ m = false ∧ ps = [])) := by
  cases hcs : composeStage co inst1.opts now src m ps with
  | mk r cc =>
    cases r with
    | error e =>
      have h := export_err_trace inst inst1 src co now m ps e cc.1 cc.2 hep hres hcs
      rw [h.2.2.2.1] at hcomp
      simp at hcomp
    | ok fsOpt =>
      have htr := export_ok_trace inst inst1 src co now m ps fsOpt cc.1 cc.2
        hep hres hcs
      rw [htr.2.2] at hcomp
      injection hcomp with hf
      subst hf
      cases hre : src.refs.isEmpty with
      | true =>
        unfold composeStage at hcs
        rw [hre] at hcs
        simp only [if_pos] at hcs
        cases hg : getDirF co inst1.opts now "" src.ref with
        | error e2 => rw [hg] at hcs; simp at hcs
        | ok dc =>
          rw [hg] at hcs
          simp at hcs
          rw [← hcs.1]
          simp [hre]
      | false =>
        unfold composeStage at hcs
        rw [hre] at hcs
        simp only [Bool.false_eq_true, if_neg, if_false] at hcs
        have := materializeLoop_ok_none co inst1.opts now src.refs m ps []
          fsOpt cc.1 cc.2 (by rw [hcs])
        rw [this]
        simp

/-- Claim C10 witness: the nil-filesystem characterization applied at the
zero-platform concrete input. -/
theorem c10_witness :
    srcZeroBytes.refs.isEmpty = false ∧ (false : Bool) = false ∧
    ([] : List String) = [] :=
  (c10_nil_fs_characterization instOvFalse instOvFalse srcZeroBytes coStd 0
    false [] none rfl rfl rfl).mp rfl

end TarExport
